import Mathlib

/-!
# Verification of the PDE project discovery and classification pipeline

Shallow embedding of the scanner (`ProjectScanner`) and detector
(`ProjectDetector`) from `src/core/types.ts` of the PDE repository.

The filesystem is modelled as a finite tree (`FS`).  JavaScript string
operations used by the source (`toLowerCase`, `split`, `includes`,
`startsWith`) are modelled over `String.data` (lists of characters), with
`Char.toLower` standing in for JS `toLowerCase` (the folder and file names
involved are ASCII).  JS numbers are modelled exactly by `ℚ`: every score
computed by the detector is a small decimal and all comparisons made by the
source are at distances far above double-precision rounding error.

Asynchronous effects are irrelevant to the embedded logic: every Deno
filesystem call either returns the listing/stat of a tree node or fails,
which the model expresses with `Option` (`FS.badDir` is a directory whose
listing fails, e.g. from a permission error).  Wall-clock reading
(`Date.now()`) is an environment input, passed to `scanProjects` as the
`elapsed` argument.
-/

namespace PDE

/-! ## JS string primitives -/

/-- JS `s.toLowerCase()` (ASCII-faithful). -/
def strToLower (s : String) : String := ⟨s.data.map Char.toLower⟩

/-- JS `s.includes(c)` for a single character. -/
def strContainsChar (s : String) (c : Char) : Bool := s.data.contains c

/-- JS `pre.isPrefix`-style check: `s.startsWith(pre)`. -/
def strStartsWith (s pre : String) : Bool := pre.data.isPrefixOf s.data

/-- Substring occurrence over character lists (used for JS `s.includes(sub)`). -/
def hasSubstrCL (sub : List Char) : List Char → Bool
  | [] => sub.isEmpty
  | x :: rest => sub.isPrefixOf (x :: rest) || hasSubstrCL sub rest

/-- JS `s.includes(sub)` for a substring. -/
def strIncludes (s sub : String) : Bool := hasSubstrCL sub.data s.data

/-- JS `s.split(c)` on character lists: splits at every occurrence of `c`,
keeping empty segments, and yields `[[]]` on the empty string. -/
def splitOnCharList (c : Char) : List Char → List (List Char)
  | [] => [[]]
  | x :: rest =>
    let ps := splitOnCharList c rest
    if x = c then [] :: ps
    else
      match ps with
      | [] => [[x]]
      | p :: tl => (x :: p) :: tl

/-- JS `s.split(c)` returning strings. -/
def strSplitOn (s : String) (c : Char) : List String :=
  (splitOnCharList c s.data).map (fun l => ⟨l⟩)

/-! ## Filesystem model -/

/-- The part of a parsed `package.json` consulted by the detector: the key/value
maps `dependencies`, `devDependencies` and `scripts`. -/
structure Manifest where
  dependencies : List (String × String)
  devDependencies : List (String × String)
  scripts : List (String × String)
deriving DecidableEq, Repr

/-- A filesystem tree.  A `file` carries the manifest obtained by parsing it as
JSON (`none` when the file is not valid JSON or is never parsed); a `dir`
carries its listing; a `badDir` is a directory whose `stat` succeeds but whose
listing (`Deno.readDir`) fails, e.g. for lack of permission. -/
inductive FS where
  | file (manifest : Option Manifest)
  | dir (entries : List (String × FS))
  | badDir
deriving Inhabited

/-- Find a child by name in a directory listing. -/
def lookupEntry : List (String × FS) → String → Option FS
  | [], _ => none
  | (n, node) :: rest, name => if n = name then some node else lookupEntry rest name

/-- Resolve a relative path (list of components) from a node; `none` models a
failing `Deno.stat` (missing entry, or traversal through a file/unreadable
directory). -/
def FS.lookup : FS → List String → Option FS
  | t, [] => some t
  | FS.dir es, n :: p =>
    match lookupEntry es n with
    | some child => child.lookup p
    | none => none
  | FS.file _, _ :: _ => none
  | FS.badDir, _ :: _ => none

/-- `Deno.readDir` on a node: the listing of a readable directory, `none` when
the call throws (file, or unreadable directory). -/
def FS.readDir : FS → Option (List (String × FS))
  | FS.dir es => some es
  | _ => none

/-- `stat.isDirectory` of a node. -/
def FS.isDirectory : FS → Bool
  | FS.file _ => false
  | _ => true

/-! ## Scanner: name classifiers (`ProjectScanner.isSubdomainLike`,
`isDomainLike`, `looksLikeProjectFolder` in `src/core/types.ts`) -/

/-- `subdomainPatterns` table from `ProjectScanner.isSubdomainLike`. -/
def subdomainPatterns : List String :=
  ["api", "www", "app", "admin", "dashboard", "portal", "client",
   "blog", "news", "docs", "help", "support", "forum",
   "shop", "store", "cart", "checkout", "payment",
   "cdn", "static", "assets", "media", "files",
   "dev", "staging", "test", "beta", "alpha", "demo",
   "mail", "email", "webmail", "ftp", "ssh",
   "mobile", "m", "wap",
   "us", "uk", "eu", "asia", "au",
   "en", "fr", "de", "es", "it", "pt", "ru", "zh", "ja",
   "gaming", "vanlife", "democracy", "merch", "learning", "community"]

/-- `projectFolderPatterns` exclusion table from `ProjectScanner.isSubdomainLike`. -/
def projectFolderPatterns : List String :=
  ["src", "source", "lib", "libs", "components", "comp", "ui",
   "build", "dist", "output", "target", "bin",
   "public", "static", "assets", "images", "img", "css", "js", "fonts",
   "node_modules", ".git", ".vscode", ".idea",
   "test", "tests", "__tests__", "spec", "specs",
   "docs", "documentation", "readme",
   "config", "configs", "settings",
   "utils", "utilities", "helpers", "common",
   "types", "interfaces", "models", "schemas",
   "pages", "views", "templates", "layouts",
   "styles", "scss", "sass", "less",
   "scripts", "tools", "deploy", "deployment",
   "article", "articles"]

/-- `tlds` table from `ProjectScanner.isDomainLike`. -/
def tlds : List String :=
  ["com", "org", "net", "edu", "gov", "mil", "int",
   "uk", "us", "ca", "au", "de", "fr", "jp", "cn", "in", "br", "mx", "ru",
   "app", "dev", "io", "ai", "tech", "digital", "online", "website", "site",
   "blog", "news", "info", "biz", "name", "pro", "coop", "museum",
   "am", "tv", "me", "co", "ly", "be", "cc", "ws", "tk", "ml", "ga", "cf",
   "center", "club", "space", "store", "gallery", "studio", "design",
   "agency", "company", "solutions", "services", "consulting", "group"]

/-- `ProjectScanner.isDomainLike`: the name contains a dot and, after
lowercasing, the part after the last dot is a recognized TLD. -/
def isDomainLike (name : String) : Bool :=
  if strContainsChar name '.' then
    tlds.contains ⟨(splitOnCharList '.' (strToLower name).data).getLastD []⟩
  else
    false

/-- `ProjectScanner.isSubdomainLike`: exclusion table first, then dotted names
delegate to `isDomainLike`, then the subdomain-pattern table, else `false`. -/
def isSubdomainLike (name : String) : Bool :=
  let lowerName := strToLower name
  if projectFolderPatterns.contains lowerName then false
  else if strContainsChar name '.' then isDomainLike name
  else if subdomainPatterns.contains lowerName then true
  else false

/-- `projectPatterns` table from `ProjectScanner.looksLikeProjectFolder`. -/
def projectPatterns : List String :=
  ["portfolio", "website", "app", "api", "frontend", "backend", "client", "server",
   "dashboard", "admin", "cms", "blog", "shop", "store", "ecommerce",
   "react", "vue", "angular", "svelte", "next", "nuxt", "gatsby", "astro",
   "node", "deno", "express", "fastify", "nest",
   "landing", "docs", "documentation", "guide", "tutorial", "demo", "example",
   "prototype", "poc", "mvp", "beta", "alpha", "test", "dev", "staging",
   "my-", "personal-", "own-", "self-",
   "client-", "work-", "project-", "freelance-"]

/-- `ProjectScanner.looksLikeProjectFolder`: some pattern matches the lowercased
name — as a leading segment for patterns ending in `-`, as a substring
otherwise. -/
def looksLikeProjectFolder (name : String) : Bool :=
  let lowerName := strToLower name
  projectPatterns.any (fun pattern =>
    if pattern.endsWith "-" then strStartsWith lowerName pattern
    else strIncludes lowerName pattern)

/-! ## Scanner: traversal (`ProjectScanner.scanProjects` / `discoverProjects`) -/

/-- Indicator names checked by `ProjectScanner.isProjectDirectory` (the entry
`README.md` is compared against lowercased names and hence never matches; it is
kept verbatim from the source). -/
def scanIndicators : List String :=
  ["package.json", "deno.json", "index.html", "src", "public", ".git",
   "README.md", "readme.md"]

/-- `ProjectScanner.isProjectDirectory`: lists the node and reports whether any
entry name (lowercased) is an indicator; a failed listing yields `false`. -/
def isProjectDirectory (node : FS) : Bool :=
  match node.readDir with
  | none => false
  | some entries => entries.any (fun e => scanIndicators.contains (strToLower e.1))

/-- A discovered project location.  `path` is the path relative to the scan
root; `category` is the lowercased category folder name (the source casts it to
`ProjectCategory`). -/
structure DiscoveredLocation where
  path : List String
  category : String
  domain : Option String
  subdomain : Option String
deriving DecidableEq, Repr

/-- Children of a domain folder: each subdirectory passing `isSubdomainLike`
becomes a discovered location; others are skipped. -/
def scanDomainChildren (categoryName catFolder domFolder : String)
    (entries : List (String × FS)) : List DiscoveredLocation :=
  entries.filterMap (fun e =>
    if e.2.isDirectory then
      if isSubdomainLike e.1 then
        some ⟨[catFolder, domFolder, e.1], categoryName, some domFolder, some e.1⟩
      else none
    else none)

/-- Children of a non-domain container folder: each subdirectory passing
`isProjectDirectory` becomes a discovered location. -/
def scanContainerChildren (categoryName catFolder itemName : String)
    (entries : List (String × FS)) : List DiscoveredLocation :=
  entries.filterMap (fun e =>
    if e.2.isDirectory then
      if isProjectDirectory e.2 then
        some ⟨[catFolder, itemName, e.1], categoryName, some itemName, some e.1⟩
      else none
    else none)

/-- One level-2 item of `ProjectScanner.discoverProjects`.  A domain-like name
is always recorded (the source's `isProjectDirectory` probe feeds two branches
that push the identical location); a failed listing of the domain or container
folder is logged and skipped without an error record. -/
def scanCategoryItem (categoryName catFolder : String) (name : String) (node : FS) :
    List DiscoveredLocation :=
  if isDomainLike name then
    ⟨[catFolder, name], categoryName, some name, none⟩ ::
      (match node.readDir with
       | none => []
       | some entries => scanDomainChildren categoryName catFolder name entries)
  else if looksLikeProjectFolder name then []
  else
    match node.readDir with
    | none => []
    | some entries => scanContainerChildren categoryName catFolder name entries

/-- Error message standing in for the message of a failed `Deno.readDir` call. -/
def permissionDeniedMsg : String := "Permission denied"

/-- Level-1 loop of `ProjectScanner.discoverProjects` over the root listing:
non-directories and unknown category names are skipped; a failed listing of a
category folder escapes the whole traversal (the source's outer catch
rethrows), discarding every location found so far. -/
def scanCategories : List (String × FS) → Except String (List DiscoveredLocation)
  | [] => Except.ok []
  | (name, node) :: rest =>
    if node.isDirectory then
      let categoryName := strToLower name
      if categoryName = "personal" ∨ categoryName = "professional" then
        match node.readDir with
        | none => Except.error permissionDeniedMsg
        | some items =>
          match scanCategories rest with
          | Except.error e => Except.error e
          | Except.ok restLocs =>
            Except.ok
              ((items.foldr (fun e acc =>
                  (if e.2.isDirectory then scanCategoryItem categoryName name e.1 e.2
                   else []) ++ acc) []) ++ restLocs)
      else scanCategories rest
    else scanCategories rest

/-- `ProjectScanner.discoverProjects`: lists the root and walks the two fixed
levels; a failed root listing is rethrown. -/
def discoverProjects (root : FS) : Except String (List DiscoveredLocation) :=
  match root.readDir with
  | none => Except.error permissionDeniedMsg
  | some cats => scanCategories cats

/-- One entry of `ScanResult.errors` (`{path, error, timestamp}` in the source;
the timestamp is a wall-clock reading and is not modelled). -/
structure ScanError where
  path : List String
  error : String
deriving DecidableEq, Repr

/-- `ScanResult` from the source, without the `timestamp` wall-clock field. -/
structure ScanResult where
  success : Bool
  projectsFound : Nat
  projectsAdded : Nat
  projectsUpdated : Nat
  projectsRemoved : Nat
  errors : List ScanError
  scanDuration : Nat
deriving DecidableEq, Repr

/-- The mutable fields of `ProjectScanner` relevant to scanning. -/
structure ScannerState where
  scanInProgress : Bool
  lastDiscoveredProjects : List DiscoveredLocation
deriving DecidableEq, Repr

/-- `ProjectScanner.getDiscoveredProjects`. -/
def getDiscoveredProjects (st : ScannerState) : List DiscoveredLocation :=
  st.lastDiscoveredProjects

/-- `ProjectScanner.directoryExists`: `Deno.stat` succeeds and reports a
directory (`none` models a missing path). -/
def directoryExistsOpt : Option FS → Bool
  | some (FS.file _) => false
  | some (FS.dir _) => true
  | some FS.badDir => true
  | none => false

/-- Message of the root-not-found error thrown by `scanProjects` (the source
interpolates the root path into the message). -/
def rootNotFoundMsg : String := "Projects directory not found"

/-- A `ScanResult` for a failed scan: the catch block pushes one error record
whose `path` is the scan root. -/
def failResult (e : String) (elapsed : Nat) : ScanResult :=
  { success := false, projectsFound := 0, projectsAdded := 0, projectsUpdated := 0,
    projectsRemoved := 0, errors := [⟨[], e⟩], scanDuration := elapsed }

/-- A `ScanResult` for a successful scan. -/
def okResult (n : Nat) (elapsed : Nat) : ScanResult :=
  { success := true, projectsFound := n, projectsAdded := 0, projectsUpdated := 0,
    projectsRemoved := 0, errors := [], scanDuration := elapsed }

/-- `ProjectScanner.scanProjects`.  The root argument is the node at the
configured scan root (`none` when the path does not exist); `elapsed` is the
wall-clock duration measured by the source's `finally` block.  A scan already
in progress throws (`Except.error`) before touching any state; every other
outcome returns a `ScanResult`, clears the flag and records the duration, and
assigns `lastDiscoveredProjects` only on the success path. -/
def scanProjects (st : ScannerState) (root : Option FS) (elapsed : Nat) :
    Except String ScanResult × ScannerState :=
  if st.scanInProgress then
    (Except.error "Scan already in progress", st)
  else if directoryExistsOpt root then
    match root with
    | some rootFS =>
      match discoverProjects rootFS with
      | Except.ok locs =>
        (Except.ok (okResult locs.length elapsed), ⟨false, locs⟩)
      | Except.error e =>
        (Except.ok (failResult e elapsed), ⟨false, st.lastDiscoveredProjects⟩)
    | none =>
      (Except.ok (failResult rootNotFoundMsg elapsed), ⟨false, st.lastDiscoveredProjects⟩)
  else
    (Except.ok (failResult rootNotFoundMsg elapsed), ⟨false, st.lastDiscoveredProjects⟩)

/-! ## Detector (`ProjectDetector` and `DETECTION_PATTERNS` in
`src/core/types.ts`) -/

/-- The project type tags of the detection table (plus `unknown`).  The
source's `static` tag is spelled `staticSite`. -/
inductive ProjectType where
  | react | vue | svelte | angular | next | nuxt | deno | node | staticSite
  | wordpress | unknown
deriving DecidableEq, Repr

/-- `ProjectIndicators`: the boolean flags filled by
`ProjectDetector.gatherIndicators`. -/
structure ProjectIndicators where
  packageJson : Bool
  denoJson : Bool
  indexHtml : Bool
  readme : Bool
  gitRepo : Bool
  nodeModules : Bool
  srcFolder : Bool
  publicFolder : Bool
  buildFolder : Bool
deriving DecidableEq, Repr

/-- `ProjectDetector.getEmptyIndicators`. -/
def getEmptyIndicators : ProjectIndicators :=
  { packageJson := false, denoJson := false, indexHtml := false, readme := false,
    gitRepo := false, nodeModules := false, srcFolder := false,
    publicFolder := false, buildFolder := false }

/-- The `indicators` record of one `DetectionPattern`.  `none` in the three
manifest fields models a field absent from the source literal (JS `undefined`,
which is falsy, while a present empty array is truthy). -/
structure DetectionIndicators where
  files : List String
  folders : List String
  packageJsonDeps : Option (List String)
  packageJsonDevDeps : Option (List String)
  packageJsonScripts : Option (List String)

/-- One entry of the detection table. -/
structure DetectionPattern where
  type : ProjectType
  indicators : DetectionIndicators
  confidence : ℚ
  priority : ℚ

/-- The `next` entry of `DETECTION_PATTERNS`. -/
def nextPattern : DetectionPattern :=
  { type := ProjectType.next,
    indicators :=
      { files := ["next.config.js", "next.config.ts", "next.config.mjs"],
        folders := ["pages", "app"],
        packageJsonDeps := some ["next"],
        packageJsonDevDeps := none,
        packageJsonScripts := some ["dev", "build"] },
    confidence := 0.95, priority := 10 }

/-- The `nuxt` entry of `DETECTION_PATTERNS`. -/
def nuxtPattern : DetectionPattern :=
  { type := ProjectType.nuxt,
    indicators :=
      { files := ["nuxt.config.js", "nuxt.config.ts"],
        folders := ["pages", "components"],
        packageJsonDeps := some ["nuxt", "@nuxt/"],
        packageJsonDevDeps := none,
        packageJsonScripts := none },
    confidence := 0.95, priority := 9 }

/-- The `react` entry of `DETECTION_PATTERNS`. -/
def reactPattern : DetectionPattern :=
  { type := ProjectType.react,
    indicators :=
      { files := [],
        folders := ["src"],
        packageJsonDeps := some ["react", "react-dom"],
        packageJsonDevDeps := some ["@types/react", "vite", "create-react-app"],
        packageJsonScripts := none },
    confidence := 0.85, priority := 8 }

/-- The `vue` entry of `DETECTION_PATTERNS`. -/
def vuePattern : DetectionPattern :=
  { type := ProjectType.vue,
    indicators :=
      { files := ["vue.config.js", "vite.config.ts"],
        folders := ["src"],
        packageJsonDeps := some ["vue"],
        packageJsonDevDeps := some ["@vitejs/plugin-vue", "@vue/cli"],
        packageJsonScripts := none },
    confidence := 0.85, priority := 7 }

/-- The `svelte` entry of `DETECTION_PATTERNS`. -/
def sveltePattern : DetectionPattern :=
  { type := ProjectType.svelte,
    indicators :=
      { files := ["svelte.config.js", "vite.config.js"],
        folders := ["src"],
        packageJsonDeps := some ["svelte"],
        packageJsonDevDeps := some ["@sveltejs/", "vite"],
        packageJsonScripts := none },
    confidence := 0.85, priority := 6 }

/-- The `angular` entry of `DETECTION_PATTERNS`. -/
def angularPattern : DetectionPattern :=
  { type := ProjectType.angular,
    indicators :=
      { files := ["angular.json", "ng-package.json"],
        folders := ["src/app"],
        packageJsonDeps := some ["@angular/core"],
        packageJsonDevDeps := some ["@angular/cli"],
        packageJsonScripts := none },
    confidence := 0.90, priority := 5 }

/-- The `deno` entry of `DETECTION_PATTERNS`. -/
def denoPattern : DetectionPattern :=
  { type := ProjectType.deno,
    indicators :=
      { files := ["deno.json", "deno.jsonc", "deps.ts", "mod.ts"],
        folders := [],
        packageJsonDeps := some [],
        packageJsonDevDeps := none,
        packageJsonScripts := none },
    confidence := 0.90, priority := 4 }

/-- The `node` entry of `DETECTION_PATTERNS`. -/
def nodePattern : DetectionPattern :=
  { type := ProjectType.node,
    indicators :=
      { files := ["package.json"],
        folders := ["node_modules"],
        packageJsonDeps := some [],
        packageJsonDevDeps := none,
        packageJsonScripts := some ["start", "dev"] },
    confidence := 0.70, priority := 3 }

/-- The `static` entry of `DETECTION_PATTERNS`. -/
def staticPattern : DetectionPattern :=
  { type := ProjectType.staticSite,
    indicators :=
      { files := ["index.html"],
        folders := ["css", "js", "images", "assets"],
        packageJsonDeps := some [],
        packageJsonDevDeps := none,
        packageJsonScripts := none },
    confidence := 0.60, priority := 2 }

/-- The `wordpress` entry of `DETECTION_PATTERNS`. -/
def wordpressPattern : DetectionPattern :=
  { type := ProjectType.wordpress,
    indicators :=
      { files := ["wp-config.php", "index.php"],
        folders := ["wp-content", "wp-includes", "wp-admin"],
        packageJsonDeps := some [],
        packageJsonDevDeps := none,
        packageJsonScripts := none },
    confidence := 0.95, priority := 1 }

/-- The `DETECTION_PATTERNS` table, in source order. -/
def DETECTION_PATTERNS : List DetectionPattern :=
  [nextPattern, nuxtPattern, reactPattern, vuePattern, sveltePattern,
   angularPattern, denoPattern, nodePattern, staticPattern, wordpressPattern]

/-- The per-entry flag update of `ProjectDetector.gatherIndicators`. -/
def applyEntry (ind : ProjectIndicators) (e : String × FS) : ProjectIndicators :=
  let n := strToLower e.1
  match e.2 with
  | FS.file _ =>
    if n = "package.json" then { ind with packageJson := true }
    else if n = "deno.json" ∨ n = "deno.jsonc" then { ind with denoJson := true }
    else if n = "index.html" then { ind with indexHtml := true }
    else if n = "readme.md" ∨ n = "readme.txt" then { ind with readme := true }
    else ind
  | _ =>
    if n = "node_modules" then { ind with nodeModules := true }
    else if n = "src" then { ind with srcFolder := true }
    else if n = "public" then { ind with publicFolder := true }
    else if n = "build" ∨ n = "dist" ∨ n = "out" then { ind with buildFolder := true }
    else if n = ".git" then { ind with gitRepo := true }
    else ind

/-- `ProjectDetector.gatherIndicators`: one listing pass setting the flags; a
failed listing yields the empty indicator set. -/
def gatherIndicators (node : FS) : ProjectIndicators :=
  match node.readDir with
  | none => getEmptyIndicators
  | some entries => entries.foldl applyEntry getEmptyIndicators

/-- `ProjectDetector.fileExists`: `Deno.stat` of `path/name` reports a file.
Names containing `/` (such as `src/app`) traverse the tree. -/
def fileExists (node : FS) (name : String) : Bool :=
  match node.lookup (strSplitOn name '/') with
  | some (FS.file _) => true
  | _ => false

/-- `ProjectDetector.folderExists`: `Deno.stat` of `path/name` reports a
directory. -/
def folderExists (node : FS) (name : String) : Bool :=
  match node.lookup (strSplitOn name '/') with
  | some (FS.dir _) => true
  | some FS.badDir => true
  | _ => false

/-- `ProjectDetector.parsePackageJson`: `none` when the file is missing or does
not parse (the source's catch returns null), otherwise the parsed data. -/
def parsePackageJson (node : FS) : Option Manifest :=
  match node.lookup ["package.json"] with
  | some (FS.file (some m)) => some m
  | _ => none

/-- `ProjectDetector.hasDependency`: some dependency key equals the indicator
or starts with it. -/
def hasDependency (m : Manifest) (dep : String) : Bool :=
  m.dependencies.any (fun kv => kv.1 = dep || strStartsWith kv.1 dep)

/-- `ProjectDetector.hasDevDependency`. -/
def hasDevDependency (m : Manifest) (dep : String) : Bool :=
  m.devDependencies.any (fun kv => kv.1 = dep || strStartsWith kv.1 dep)

/-- The script check of `ProjectDetector.testPattern`:
`packageData.raw.scripts[script]` must exist and be truthy (a JS empty string
is falsy). -/
def hasScript (m : Manifest) (script : String) : Bool :=
  m.scripts.any (fun kv => kv.1 = script && kv.2 ≠ "")

/-- Result of `ProjectDetector.testPattern`. -/
structure TPResult where
  score : ℚ
  matchedIndicators : List String
deriving DecidableEq, Repr

/-- File indicators of the pattern present at the project path (in table
order, as pushed by the first loop of `ProjectDetector.testPattern`). -/
def tpFileHits (node : FS) (pattern : DetectionPattern) : List String :=
  pattern.indicators.files.filter (fun f => fileExists node f)

/-- Folder indicators of the pattern present at the project path. -/
def tpFolderHits (node : FS) (pattern : DetectionPattern) : List String :=
  pattern.indicators.folders.filter (fun f => folderExists node f)

/-- The manifest available to the manifest section of
`ProjectDetector.testPattern`: the parse result, but only when the gathered
indicators report a `package.json` and the pattern declares `packageJsonDeps`
(a present empty array is truthy in JS, an absent field is not). -/
def tpManifest (node : FS) (pattern : DetectionPattern)
    (indicators : ProjectIndicators) : Option Manifest :=
  if indicators.packageJson then
    match pattern.indicators.packageJsonDeps with
    | some _ => parsePackageJson node
    | none => none
  else none

/-- Declared dependency indicators found in the manifest. -/
def tpDepHits (node : FS) (pattern : DetectionPattern)
    (indicators : ProjectIndicators) : List String :=
  match tpManifest node pattern indicators, pattern.indicators.packageJsonDeps with
  | some m, some deps => deps.filter (fun d => hasDependency m d)
  | _, _ => []

/-- Declared dev-dependency indicators found in the manifest. -/
def tpDevDepHits (node : FS) (pattern : DetectionPattern)
    (indicators : ProjectIndicators) : List String :=
  match tpManifest node pattern indicators, pattern.indicators.packageJsonDevDeps with
  | some m, some dd => dd.filter (fun d => hasDevDependency m d)
  | _, _ => []

/-- Declared script indicators found in the manifest. -/
def tpScriptHits (node : FS) (pattern : DetectionPattern)
    (indicators : ProjectIndicators) : List String :=
  match tpManifest node pattern indicators, pattern.indicators.packageJsonScripts with
  | some m, some ss => ss.filter (fun s => hasScript m s)
  | _, _ => []

/-- `ProjectDetector.testPattern`.  The source's loops add a fixed bonus and
push an evidence string per hit; the model collects the hit lists (in loop
order) and sums the bonuses, then scales by `confidence` and adds
`priority`. -/
def testPattern (node : FS) (pattern : DetectionPattern)
    (indicators : ProjectIndicators) : TPResult :=
  { score :=
      ((20 : ℚ) * (tpFileHits node pattern).length
          + 15 * (tpFolderHits node pattern).length
          + 25 * (tpDepHits node pattern indicators).length
          + 15 * (tpDevDepHits node pattern indicators).length
          + 10 * (tpScriptHits node pattern indicators).length)
        * pattern.confidence + pattern.priority,
    matchedIndicators :=
      tpFileHits node pattern ++ tpFolderHits node pattern
        ++ (tpDepHits node pattern indicators).map (fun d => "dependency: " ++ d)
        ++ (tpDevDepHits node pattern indicators).map (fun d => "devDependency: " ++ d)
        ++ (tpScriptHits node pattern indicators).map (fun s => "script: " ++ s) }

/-- `DetectedFramework` (the version-extraction field of the source is
orthogonal to classification and not modelled). -/
structure DetectedFramework where
  type : ProjectType
  confidence : ℚ
  indicators : List String
deriving DecidableEq, Repr

/-- `ProjectDetector.detectFramework`: keep the patterns with positive score;
the source's stable descending sort followed by taking the head selects the
first pattern (in table order) of maximal score, modelled by a fold that
replaces the current best only on a strictly greater score.  Confidence is
`min (score / 100) 1`. -/
def detectFramework (node : FS) (indicators : ProjectIndicators) : DetectedFramework :=
  let results := DETECTION_PATTERNS.filterMap (fun p =>
    let r := testPattern node p indicators
    if r.score > 0 then some (p, r) else none)
  match results with
  | [] => { type := ProjectType.unknown, confidence := 0, indicators := [] }
  | b :: rest =>
    let best := rest.foldl (fun acc r => if r.2.score > acc.2.score then r else acc) b
    { type := best.1.type, confidence := min (best.2.score / 100) 1,
      indicators := best.2.matchedIndicators }

/-- The classification part of `ProjectDetector.detectProject`: gather the
indicator set and run the pattern table.  The remaining fields assembled by the
source (basic info, git info, package info) do not feed back into the
classification; its catch-all never fires in the model because every
filesystem failure is already absorbed by the individual probes. -/
def detectProject (node : FS) : DetectedFramework :=
  detectFramework node (gatherIndicators node)

/-! ## Spec-side definitions and concrete scenarios -/

/-- Spec-side reading of "the substring after the last `.`": the longest
dot-free suffix of the name. -/
def suffixAfterLastDot (s : String) : String :=
  ⟨(s.data.reverse.takeWhile (fun x => x != '.')).reverse⟩

/-- A `package.json` manifest declaring exactly the dependencies `react` and
`react-dom` (at arbitrary versions), no dev-dependencies and no scripts. -/
def reactManifest (v1 v2 : String) : Manifest :=
  ⟨[("react", v1), ("react-dom", v2)], [], []⟩

/-- A project directory with such a `package.json`, a `src` folder, and no
`next.config.*` file. -/
def reactDir (v1 v2 : String) : FS :=
  FS.dir [("package.json", FS.file (some (reactManifest v1 v2))),
          ("src", FS.dir [])]

/-- The same directory with `next.config.js` added. -/
def reactNextDir (v1 v2 : String) : FS :=
  FS.dir [("package.json", FS.file (some (reactManifest v1 v2))),
          ("src", FS.dir []),
          ("next.config.js", FS.file none)]

/-- A scan root whose `personal` category holds two domain folders, one of
which (`a.com`) cannot be listed while the other (`b.com`) is readable. -/
def rootWithUnreadableDomain : FS :=
  FS.dir [("personal", FS.dir [("a.com", FS.badDir), ("b.com", FS.dir [])])]

/-- A scan root whose `personal` category folder itself cannot be listed. -/
def rootWithUnreadableCategory : FS :=
  FS.dir [("personal", FS.badDir)]

/-- A scan root with one category folder `c` holding one domain folder `d`
whose only child is a subdirectory named `api`. -/
def rootDomainApi (c d : String) (apiContents : List (String × FS)) : FS :=
  FS.dir [(c, FS.dir [(d, FS.dir [("api", FS.dir apiContents)])])]

/-! ## Helper lemmas -/

theorem splitOnCharList_ne_nil (c : Char) (l : List Char) : splitOnCharList c l ≠ [] := by
  induction l with
  | nil => simp [splitOnCharList]
  | cons x rest ih =>
    simp only [splitOnCharList]
    split
    · simp
    · cases h : splitOnCharList c rest with
      | nil => simp
      | cons p ps => simp

theorem splitOnCharList_of_not_mem (c : Char) (l : List Char) (h : c ∉ l) :
    splitOnCharList c l = [l] := by
  induction l with
  | nil => rfl
  | cons x rest ih =>
    simp only [List.mem_cons, not_or] at h
    simp only [splitOnCharList]
    rw [if_neg (by intro e; exact h.1 e.symm), ih h.2]

theorem two_le_splitOnCharList_length (c : Char) (l : List Char) (h : c ∈ l) :
    2 ≤ (splitOnCharList c l).length := by
  induction l with
  | nil => simp at h
  | cons x rest ih =>
    simp only [splitOnCharList]
    split
    · have := splitOnCharList_ne_nil c rest
      cases hs : splitOnCharList c rest with
      | nil => exact absurd hs this
      | cons p ps => simp
    · rename_i hx
      have hr : c ∈ rest := by
        rcases List.mem_cons.mp h with h1 | h2
        · exact absurd h1.symm hx
        · exact h2
      cases hs : splitOnCharList c rest with
      | nil => exact absurd hs (splitOnCharList_ne_nil c rest)
      | cons p ps =>
        rw [hs] at ih
        have := ih hr
        simp at this ⊢
        omega

theorem takeWhile_append_singleton_false {α : Type} (p : α → Bool) (A : List α) (x : α)
    (hx : p x = false) : (A ++ [x]).takeWhile p = A.takeWhile p := by
  rw [List.takeWhile_append]
  split
  · rename_i hl
    have hA : A.takeWhile p = A :=
      (List.takeWhile_prefix p).eq_of_length hl
    simp [List.takeWhile, hx, hA]
  · rfl

theorem takeWhile_append_of_exists_false {α : Type} (p : α → Bool) (A B : List α)
    (hx : ∃ a ∈ A, p a = false) : (A ++ B).takeWhile p = A.takeWhile p := by
  rw [List.takeWhile_append]
  split
  · rename_i hl
    have hA : A.takeWhile p = A :=
      (List.takeWhile_prefix p).eq_of_length hl
    rcases hx with ⟨a, ha, hpa⟩
    have : p a = true := List.mem_takeWhile_imp (by rw [hA]; exact ha)
    rw [this] at hpa; cases hpa
  · rfl

/-- The last segment produced by splitting at `c` is the longest `c`-free
suffix, i.e. the part after the last occurrence of `c`. -/
theorem getLastD_splitOnCharList (c : Char) (l : List Char) :
    (splitOnCharList c l).getLastD [] = (l.reverse.takeWhile (fun x => x != c)).reverse := by
  induction l with
  | nil => simp [splitOnCharList]
  | cons x rest ih =>
    simp only [splitOnCharList]
    by_cases hx : x = c
    · rw [if_pos hx]
      rw [List.getLastD_cons]
      have hrw : ((x :: rest).reverse.takeWhile (fun y => y != c)) =
          (rest.reverse.takeWhile (fun y => y != c)) := by
        rw [List.reverse_cons]
        exact takeWhile_append_singleton_false _ _ _ (by simp [hx])
      rw [hrw]
      exact ih
    · rw [if_neg hx]
      cases hs : splitOnCharList c rest with
      | nil => exact absurd hs (splitOnCharList_ne_nil c rest)
      | cons p ps =>
        cases ps with
        | nil =>
          have hnm : c ∉ rest := by
            intro hmem
            have := two_le_splitOnCharList_length c rest hmem
            rw [hs] at this; simp at this
          have hp : p = rest := by
            have := splitOnCharList_of_not_mem c rest hnm
            rw [hs] at this
            simpa using this
          simp only [List.getLastD_cons, List.getLastD_nil]
          rw [hp, List.reverse_cons]
          have hall : ∀ y ∈ (rest.reverse ++ [x]), (fun z => z != c) y = true := by
            intro y hy
            rcases List.mem_append.mp hy with h1 | h2
            · have : y ∈ rest := List.mem_reverse.mp h1
              simp only [bne_iff_ne, ne_eq]
              intro e; exact hnm (e ▸ this)
            · simp only [List.mem_singleton] at h2
              subst h2
              simp [bne_iff_ne, hx]
          rw [List.takeWhile_eq_self_iff.mpr hall]
          simp
        | cons q ps2 =>
          have hmem : c ∈ rest := by
            by_contra hnm
            have := splitOnCharList_of_not_mem c rest hnm
            rw [hs] at this
            simp at this
          simp only [List.getLastD_cons]
          have lhs_eq : ps2.getLastD q = (splitOnCharList c rest).getLastD [] := by
            rw [hs, List.getLastD_cons, List.getLastD_cons]
          rw [lhs_eq, ih]
          rw [List.reverse_cons]
          rw [takeWhile_append_of_exists_false _ _ _
            ⟨c, List.mem_reverse.mpr hmem, by simp⟩]

/-- ASCII-faithful fact about `Char.toLower`: only `'.'` lowercases to `'.'`. -/
theorem toLower_eq_dot (c : Char) : Char.toLower c = '.' ↔ c = '.' := by
  constructor
  · intro h
    rw [Char.toLower] at h
    by_cases hn : c.toNat ≥ 65 ∧ c.toNat ≤ 90
    · rw [if_pos hn] at h
      exfalso
      have h46 : (Char.ofNat (c.toNat + 32)).toNat = ('.' : Char).toNat := by rw [h]
      have hv : Nat.isValidChar (c.toNat + 32) := Or.inl (by omega)
      rw [show ('.' : Char).toNat = 46 from rfl] at h46
      unfold Char.ofNat at h46
      rw [dif_pos hv] at h46
      simp only [Char.ofNatAux, Char.toNat, UInt32.toNat] at h46
      rw [BitVec.toNat_ofNatLt] at h46
      simp only [Char.toNat, UInt32.toNat] at hn
      omega
    · rwa [if_neg hn] at h
  · intro h; subst h; decide

theorem bool_ne_true {b : Bool} (h : b = false) : ¬(b = true) := by simp [h]

theorem toLower_bne_dot (c : Char) : (Char.toLower c != '.') = (c != '.') := by
  by_cases h : c = '.'
  · subst h; decide
  · have h2 : Char.toLower c ≠ '.' := fun e => h ((toLower_eq_dot c).mp e)
    have e1 : (Char.toLower c != '.') = true := bne_iff_ne.mpr h2
    have e2 : (c != '.') = true := bne_iff_ne.mpr h
    rw [e1, e2]

/-! ## Claim theorems -/

/-- C9: `isDomainLike` returns true exactly when the name contains a dot and
the substring after the last dot, compared case-insensitively, is in the fixed
TLD set; `x.com`, `sub.app` and `thing.io` are accepted, while dotless names
and unrecognized suffixes such as `widget.xyz123` are rejected. -/
theorem claim_C9_isDomainLike_tld_suffix :
    (∀ name, isDomainLike name
        = (strContainsChar name '.' && tlds.contains (strToLower (suffixAfterLastDot name))))
      ∧ isDomainLike "x.com" = true ∧ isDomainLike "sub.app" = true
      ∧ isDomainLike "thing.io" = true ∧ isDomainLike "widget.xyz123" = false
      ∧ isDomainLike "widget" = false := by
  refine ⟨?_, by decide, by decide, by decide, by decide, by decide⟩
  intro name
  unfold isDomainLike
  cases h : strContainsChar name '.' with
  | false => simp
  | true =>
    simp only [if_true, Bool.true_and]
    congr 1
    show (⟨(splitOnCharList '.' (name.data.map Char.toLower)).getLastD []⟩ : String)
      = ⟨((name.data.reverse.takeWhile (fun x => x != '.')).reverse).map Char.toLower⟩
    congr 1
    rw [getLastD_splitOnCharList]
    rw [show (name.data.map Char.toLower).reverse = name.data.reverse.map Char.toLower from
      (List.map_reverse _ _).symm]
    rw [List.takeWhile_map]
    have hp : ((fun x => x != '.') ∘ Char.toLower) = (fun x : Char => x != '.') :=
      funext fun c => toLower_bne_dot c
    rw [hp]
    rw [show ((name.data.reverse.takeWhile (fun x => x != '.')).map Char.toLower).reverse
        = ((name.data.reverse.takeWhile (fun x => x != '.')).reverse).map Char.toLower from
      (List.map_reverse _ _).symm]

/-- C8: `isSubdomainLike` applies its rules in fixed order — exclusion-set
names always yield false, dotted names are decided by `isDomainLike`, names in
the subdomain-pattern set yield true and every remaining name yields false;
in particular `api` is a subdomain, `article` is not, and `blog.example.com`
delegates to the domain check. -/
theorem claim_C8_isSubdomainLike_rule_order :
    (∀ name, projectFolderPatterns.contains (strToLower name) = true →
        isSubdomainLike name = false)
      ∧ (∀ name, projectFolderPatterns.contains (strToLower name) = false →
          strContainsChar name '.' = true → isSubdomainLike name = isDomainLike name)
      ∧ (∀ name, projectFolderPatterns.contains (strToLower name) = false →
          strContainsChar name '.' = false →
          isSubdomainLike name = subdomainPatterns.contains (strToLower name))
      ∧ isSubdomainLike "api" = true
      ∧ isSubdomainLike "article" = false
      ∧ isSubdomainLike "blog.example.com" = true := by
  refine ⟨?_, ?_, ?_, by decide, by decide, by decide⟩
  · intro name h
    unfold isSubdomainLike
    rw [if_pos h]
  · intro name h1 h2
    unfold isSubdomainLike
    rw [if_neg (bool_ne_true h1), if_pos h2]
  · intro name h1 h2
    unfold isSubdomainLike
    rw [if_neg (bool_ne_true h1), if_neg (bool_ne_true h2)]
    cases hsp : subdomainPatterns.contains (strToLower name) <;> simp [hsp]

/-- Witness for C8 at concrete inputs: `src` is excluded, `x.com` delegates to
the domain check, and `api` is decided by the subdomain-pattern table. -/
theorem claim_C8_witness :
    isSubdomainLike "src" = false
      ∧ isSubdomainLike "x.com" = isDomainLike "x.com"
      ∧ isSubdomainLike "api" = subdomainPatterns.contains (strToLower "api") :=
  ⟨claim_C8_isSubdomainLike_rule_order.1 "src" (by decide),
   claim_C8_isSubdomainLike_rule_order.2.1 "x.com" (by decide) (by decide),
   claim_C8_isSubdomainLike_rule_order.2.2.1 "api" (by decide) (by decide)⟩

/-- If a pattern matched no indicator at all, its final score is exactly its
priority: the raw score 0 is scaled by the confidence and the priority is then
added unconditionally, so no-match patterns still score positive. -/
theorem testPattern_of_no_match (node : FS) (p : DetectionPattern)
    (ind : ProjectIndicators)
    (h : (testPattern node p ind).matchedIndicators = []) :
    testPattern node p ind = ⟨p.priority, []⟩ := by
  unfold testPattern at h ⊢
  simp only [List.append_eq_nil, List.map_eq_nil_iff] at h
  obtain ⟨⟨⟨⟨hf, hfo⟩, hd⟩, hdd⟩, hs⟩ := h
  rw [hf, hfo, hd, hdd, hs]
  simp

/-- In every directory where no pattern matches any indicator, every signature
scores exactly its priority and the fold keeps the first (highest-priority)
entry, `next`, whose score 10 normalizes to confidence 0.1. -/
theorem detectProject_of_no_match (node : FS)
    (h : ∀ p ∈ DETECTION_PATTERNS,
        (testPattern node p (gatherIndicators node)).matchedIndicators = []) :
    detectProject node =
      { type := ProjectType.next, confidence := 1/10, indicators := [] } := by
  have h' : ∀ p ∈ DETECTION_PATTERNS,
      testPattern node p (gatherIndicators node) = ⟨p.priority, []⟩ :=
    fun p hp => testPattern_of_no_match node p _ (h p hp)
  simp only [DETECTION_PATTERNS, List.forall_mem_cons] at h'
  obtain ⟨h1, h2, h3, h4, h5, h6, h7, h8, h9, h10, -⟩ := h'
  unfold detectProject detectFramework
  simp only [DETECTION_PATTERNS, List.filterMap_cons, List.filterMap_nil,
    h1, h2, h3, h4, h5, h6, h7, h8, h9, h10]
  norm_num [nextPattern, nuxtPattern, reactPattern, vuePattern, sveltePattern,
    angularPattern, denoPattern, nodePattern, staticPattern, wordpressPattern]

/-- C1 counterexample: in the empty directory no detection signature matches
any indicator, yet `detectProject` classifies it as `next` with confidence 0.1
and empty evidence — not as `unknown` with confidence 0 — because every
signature's final score is its positive priority. -/
theorem claim_C1_counterexample :
    detectProject (FS.dir [])
        = { type := ProjectType.next, confidence := 1/10, indicators := [] }
      ∧ (detectProject (FS.dir [])).type ≠ ProjectType.unknown
      ∧ (detectProject (FS.dir [])).confidence ≠ 0 := by
  have h := detectProject_of_no_match (FS.dir []) (by decide)
  exact ⟨h, by rw [h]; decide, by rw [h]; norm_num⟩

/-- C1 amended: in every directory where no detection signature matches any
indicator, each signature's final score equals its positive priority, so none
is discarded, and `detectProject` returns the highest-priority signature
`next` with confidence 0.1 and an empty evidence list (never `unknown`). -/
theorem claim_C1_no_match_yields_next (node : FS)
    (h : ∀ p ∈ DETECTION_PATTERNS,
        (testPattern node p (gatherIndicators node)).matchedIndicators = []) :
    detectProject node =
      { type := ProjectType.next, confidence := 1/10, indicators := [] } :=
  detectProject_of_no_match node h

/-- Witness for the amended C1 at the empty directory. -/
theorem claim_C1_witness :
    detectProject (FS.dir [])
      = { type := ProjectType.next, confidence := 1/10, indicators := [] } :=
  claim_C1_no_match_yields_next (FS.dir []) (by decide)

/-- Piecing `testPattern` together from its component hit lists. -/
theorem testPattern_eval (node : FS) (p : DetectionPattern) (ind : ProjectIndicators)
    (f fo d dd s : List String) (sc : ℚ)
    (hf : tpFileHits node p = f) (hfo : tpFolderHits node p = fo)
    (hd : tpDepHits node p ind = d) (hdd : tpDevDepHits node p ind = dd)
    (hs : tpScriptHits node p ind = s)
    (hsc : ((20 : ℚ) * f.length + 15 * fo.length + 25 * d.length + 15 * dd.length
        + 10 * s.length) * p.confidence + p.priority = sc) :
    testPattern node p ind =
      ⟨sc, f ++ fo ++ d.map (fun x => "dependency: " ++ x)
        ++ dd.map (fun x => "devDependency: " ++ x)
        ++ s.map (fun x => "script: " ++ x)⟩ := by
  unfold testPattern
  rw [hf, hfo, hd, hdd, hs, hsc]

/-- Full evaluation of the detector on the react directory: the react
signature scores (15 + 25 + 25) × 0.85 + 8 = 63.25 and wins. -/
theorem detect_reactDir_eval (v1 v2 : String) :
    detectProject (reactDir v1 v2) =
      { type := ProjectType.react, confidence := 0.6325,
        indicators := ["src", "dependency: react", "dependency: react-dom"] } := by
  have t1 : testPattern (reactDir v1 v2) nextPattern (gatherIndicators (reactDir v1 v2))
      = ⟨10, []⟩ := by
    simpa using testPattern_eval (reactDir v1 v2) nextPattern
      (gatherIndicators (reactDir v1 v2)) [] [] [] [] [] 10
      rfl rfl rfl rfl rfl (by norm_num [nextPattern])
  have t2 : testPattern (reactDir v1 v2) nuxtPattern (gatherIndicators (reactDir v1 v2))
      = ⟨9, []⟩ := by
    simpa using testPattern_eval (reactDir v1 v2) nuxtPattern
      (gatherIndicators (reactDir v1 v2)) [] [] [] [] [] 9
      rfl rfl rfl rfl rfl (by norm_num [nuxtPattern])
  have t3 : testPattern (reactDir v1 v2) reactPattern (gatherIndicators (reactDir v1 v2))
      = ⟨63.25, ["src", "dependency: react", "dependency: react-dom"]⟩ := by
    simpa using testPattern_eval (reactDir v1 v2) reactPattern
      (gatherIndicators (reactDir v1 v2)) [] ["src"] ["react", "react-dom"] [] [] 63.25
      rfl rfl rfl rfl rfl (by norm_num [reactPattern])
  have t4 : testPattern (reactDir v1 v2) vuePattern (gatherIndicators (reactDir v1 v2))
      = ⟨19.75, ["src"]⟩ := by
    simpa using testPattern_eval (reactDir v1 v2) vuePattern
      (gatherIndicators (reactDir v1 v2)) [] ["src"] [] [] [] 19.75
      rfl rfl rfl rfl rfl (by norm_num [vuePattern])
  have t5 : testPattern (reactDir v1 v2) sveltePattern (gatherIndicators (reactDir v1 v2))
      = ⟨18.75, ["src"]⟩ := by
    simpa using testPattern_eval (reactDir v1 v2) sveltePattern
      (gatherIndicators (reactDir v1 v2)) [] ["src"] [] [] [] 18.75
      rfl rfl rfl rfl rfl (by norm_num [sveltePattern])
  have t6 : testPattern (reactDir v1 v2) angularPattern (gatherIndicators (reactDir v1 v2))
      = ⟨5, []⟩ := by
    simpa using testPattern_eval (reactDir v1 v2) angularPattern
      (gatherIndicators (reactDir v1 v2)) [] [] [] [] [] 5
      rfl rfl rfl rfl rfl (by norm_num [angularPattern])
  have t7 : testPattern (reactDir v1 v2) denoPattern (gatherIndicators (reactDir v1 v2))
      = ⟨4, []⟩ := by
    simpa using testPattern_eval (reactDir v1 v2) denoPattern
      (gatherIndicators (reactDir v1 v2)) [] [] [] [] [] 4
      rfl rfl rfl rfl rfl (by norm_num [denoPattern])
  have t8 : testPattern (reactDir v1 v2) nodePattern (gatherIndicators (reactDir v1 v2))
      = ⟨17, ["package.json"]⟩ := by
    simpa using testPattern_eval (reactDir v1 v2) nodePattern
      (gatherIndicators (reactDir v1 v2)) ["package.json"] [] [] [] [] 17
      rfl rfl rfl rfl rfl (by norm_num [nodePattern])
  have t9 : testPattern (reactDir v1 v2) staticPattern (gatherIndicators (reactDir v1 v2))
      = ⟨2, []⟩ := by
    simpa using testPattern_eval (reactDir v1 v2) staticPattern
      (gatherIndicators (reactDir v1 v2)) [] [] [] [] [] 2
      rfl rfl rfl rfl rfl (by norm_num [staticPattern])
  have t10 : testPattern (reactDir v1 v2) wordpressPattern (gatherIndicators (reactDir v1 v2))
      = ⟨1, []⟩ := by
    simpa using testPattern_eval (reactDir v1 v2) wordpressPattern
      (gatherIndicators (reactDir v1 v2)) [] [] [] [] [] 1
      rfl rfl rfl rfl rfl (by norm_num [wordpressPattern])
  unfold detectProject detectFramework
  simp only [DETECTION_PATTERNS, List.filterMap_cons, List.filterMap_nil,
    t1, t2, t3, t4, t5, t6, t7, t8, t9, t10]
  norm_num [min_def, nextPattern, nuxtPattern, reactPattern, vuePattern, sveltePattern,
    angularPattern, denoPattern, nodePattern, staticPattern, wordpressPattern]

/-- Full evaluation of the detector on the react directory with
`next.config.js` added: the next signature now scores 20 × 0.95 + 10 = 29,
still far below react's 63.25, so the classification stays react. -/
theorem detect_reactNextDir_eval (v1 v2 : String) :
    detectProject (reactNextDir v1 v2) =
      { type := ProjectType.react, confidence := 0.6325,
        indicators := ["src", "dependency: react", "dependency: react-dom"] } := by
  have t1 : testPattern (reactNextDir v1 v2) nextPattern (gatherIndicators (reactNextDir v1 v2))
      = ⟨29, ["next.config.js"]⟩ := by
    simpa using testPattern_eval (reactNextDir v1 v2) nextPattern
      (gatherIndicators (reactNextDir v1 v2)) ["next.config.js"] [] [] [] [] 29
      rfl rfl rfl rfl rfl (by norm_num [nextPattern])
  have t2 : testPattern (reactNextDir v1 v2) nuxtPattern (gatherIndicators (reactNextDir v1 v2))
      = ⟨9, []⟩ := by
    simpa using testPattern_eval (reactNextDir v1 v2) nuxtPattern
      (gatherIndicators (reactNextDir v1 v2)) [] [] [] [] [] 9
      rfl rfl rfl rfl rfl (by norm_num [nuxtPattern])
  have t3 : testPattern (reactNextDir v1 v2) reactPattern (gatherIndicators (reactNextDir v1 v2))
      = ⟨63.25, ["src", "dependency: react", "dependency: react-dom"]⟩ := by
    simpa using testPattern_eval (reactNextDir v1 v2) reactPattern
      (gatherIndicators (reactNextDir v1 v2)) [] ["src"] ["react", "react-dom"] [] [] 63.25
      rfl rfl rfl rfl rfl (by norm_num [reactPattern])
  have t4 : testPattern (reactNextDir v1 v2) vuePattern (gatherIndicators (reactNextDir v1 v2))
      = ⟨19.75, ["src"]⟩ := by
    simpa using testPattern_eval (reactNextDir v1 v2) vuePattern
      (gatherIndicators (reactNextDir v1 v2)) [] ["src"] [] [] [] 19.75
      rfl rfl rfl rfl rfl (by norm_num [vuePattern])
  have t5 : testPattern (reactNextDir v1 v2) sveltePattern (gatherIndicators (reactNextDir v1 v2))
      = ⟨18.75, ["src"]⟩ := by
    simpa using testPattern_eval (reactNextDir v1 v2) sveltePattern
      (gatherIndicators (reactNextDir v1 v2)) [] ["src"] [] [] [] 18.75
      rfl rfl rfl rfl rfl (by norm_num [sveltePattern])
  have t6 : testPattern (reactNextDir v1 v2) angularPattern (gatherIndicators (reactNextDir v1 v2))
      = ⟨5, []⟩ := by
    simpa using testPattern_eval (reactNextDir v1 v2) angularPattern
      (gatherIndicators (reactNextDir v1 v2)) [] [] [] [] [] 5
      rfl rfl rfl rfl rfl (by norm_num [angularPattern])
  have t7 : testPattern (reactNextDir v1 v2) denoPattern (gatherIndicators (reactNextDir v1 v2))
      = ⟨4, []⟩ := by
    simpa using testPattern_eval (reactNextDir v1 v2) denoPattern
      (gatherIndicators (reactNextDir v1 v2)) [] [] [] [] [] 4
      rfl rfl rfl rfl rfl (by norm_num [denoPattern])
  have t8 : testPattern (reactNextDir v1 v2) nodePattern (gatherIndicators (reactNextDir v1 v2))
      = ⟨17, ["package.json"]⟩ := by
    simpa using testPattern_eval (reactNextDir v1 v2) nodePattern
      (gatherIndicators (reactNextDir v1 v2)) ["package.json"] [] [] [] [] 17
      rfl rfl rfl rfl rfl (by norm_num [nodePattern])
  have t9 : testPattern (reactNextDir v1 v2) staticPattern (gatherIndicators (reactNextDir v1 v2))
      = ⟨2, []⟩ := by
    simpa using testPattern_eval (reactNextDir v1 v2) staticPattern
      (gatherIndicators (reactNextDir v1 v2)) [] [] [] [] [] 2
      rfl rfl rfl rfl rfl (by norm_num [staticPattern])
  have t10 : testPattern (reactNextDir v1 v2) wordpressPattern (gatherIndicators (reactNextDir v1 v2))
      = ⟨1, []⟩ := by
    simpa using testPattern_eval (reactNextDir v1 v2) wordpressPattern
      (gatherIndicators (reactNextDir v1 v2)) [] [] [] [] [] 1
      rfl rfl rfl rfl rfl (by norm_num [wordpressPattern])
  unfold detectProject detectFramework
  simp only [DETECTION_PATTERNS, List.filterMap_cons, List.filterMap_nil,
    t1, t2, t3, t4, t5, t6, t7, t8, t9, t10]
  norm_num [min_def, nextPattern, nuxtPattern, reactPattern, vuePattern, sveltePattern,
    angularPattern, denoPattern, nodePattern, staticPattern, wordpressPattern]

/-- C7: a directory whose `package.json` declares the dependencies `react` and
`react-dom`, with a `src` folder and no `next.config.*` file, is classified
`react` with positive confidence and with `dependency: react` among the
matched evidence (for any dependency version strings). -/
theorem claim_C7_react_detection (v1 v2 : String) :
    (detectProject (reactDir v1 v2)).type = ProjectType.react
      ∧ 0 < (detectProject (reactDir v1 v2)).confidence
      ∧ "dependency: react" ∈ (detectProject (reactDir v1 v2)).indicators := by
  rw [detect_reactDir_eval v1 v2]
  exact ⟨rfl, by norm_num, by simp⟩

/-- C2 counterexample: with `next.config.js` added to the react directory the
detector still returns `react`, not `next` — the react signature's score 63.25
beats next's 29, and table order/priority only breaks exact ties. -/
theorem claim_C2_counterexample :
    (detectProject (reactNextDir "^18.0.0" "^18.0.0")).type ≠ ProjectType.next
      ∧ (detectProject (reactNextDir "^18.0.0" "^18.0.0")).type = ProjectType.react := by
  rw [detect_reactNextDir_eval "^18.0.0" "^18.0.0"]
  exact ⟨by decide, rfl⟩

/-- C2 amended: for a directory whose `package.json` declares dependencies
`react` and `react-dom`, with a `src` folder and additionally `next.config.js`,
`detectProject` still returns `type = react` with the same confidence and
evidence as without the config file: next's config-file bonus (final score 29)
does not outweigh react's dependency matches (63.25), and the table-order /
priority precedence applies only between equal scores. -/
theorem claim_C2_next_config_still_react (v1 v2 : String) :
    detectProject (reactNextDir v1 v2) =
      { type := ProjectType.react, confidence := 0.6325,
        indicators := ["src", "dependency: react", "dependency: react-dom"] }
      ∧ detectProject (reactNextDir v1 v2) = detectProject (reactDir v1 v2) := by
  rw [detect_reactNextDir_eval v1 v2, detect_reactDir_eval v1 v2]
  exact ⟨rfl, rfl⟩

/-- C3 counterexample: with scan root `rootWithUnreadableDomain`, listing the
domain directory `a.com` fails during traversal (after the root was verified),
yet the scan result carries an empty error list — no error record is appended
for that path (the failure is only logged) — while the locations from the rest
of the tree are kept and the scan reports success. -/
theorem claim_C3_counterexample :
    scanProjects ⟨false, []⟩ (some rootWithUnreadableDomain) 7
      = (Except.ok (okResult 2 7),
         ⟨false, [⟨["personal", "a.com"], "personal", some "a.com", none⟩,
                  ⟨["personal", "b.com"], "personal", some "b.com", none⟩]⟩)
      ∧ (okResult 2 7).errors = [] :=
  ⟨rfl, rfl⟩

/-- A level-2 folder whose listing fails contributes exactly what an empty one
does: the domain's own location when the name is domain-like, and nothing
else — with no error of any kind (the function's return type has no error
channel; the source's inner catch only logs). -/
theorem scanCategoryItem_badDir_eq_empty (categoryName catFolder name : String) :
    scanCategoryItem categoryName catFolder name FS.badDir
      = scanCategoryItem categoryName catFolder name (FS.dir []) := by
  simp [scanCategoryItem, FS.readDir, scanDomainChildren, scanContainerChildren]

/-- Replacing one unlistable level-2 folder by an empty one, anywhere below any
category of the root listing, leaves the whole traversal result unchanged. -/
theorem scanCategories_badDir_eq_empty (cname dname : String)
    (pre post dpre dpost : List (String × FS)) :
    scanCategories (pre ++ (cname, FS.dir (dpre ++ (dname, FS.badDir) :: dpost)) :: post)
      = scanCategories (pre ++ (cname, FS.dir (dpre ++ (dname, FS.dir []) :: dpost)) :: post) := by
  induction pre with
  | nil =>
    simp only [List.nil_append]
    unfold scanCategories
    by_cases hc : (strToLower cname = "personal" ∨ strToLower cname = "professional")
    · simp only [FS.isDirectory, FS.readDir, if_pos hc, if_pos rfl]
      cases scanCategories post with
      | error e => rfl
      | ok r =>
        dsimp only
        rw [List.foldr_append, List.foldr_append, List.foldr_cons, List.foldr_cons]
        simp only [scanCategoryItem_badDir_eq_empty]
    · simp only [FS.isDirectory, if_pos rfl, if_neg hc]
  | cons a pre ih =>
    simp only [List.cons_append]
    unfold scanCategories
    simp only [ih]

theorem discoverProjects_badDir_eq_empty (cname dname : String)
    (pre post dpre dpost : List (String × FS)) :
    discoverProjects
        (FS.dir (pre ++ (cname, FS.dir (dpre ++ (dname, FS.badDir) :: dpost)) :: post))
      = discoverProjects
          (FS.dir (pre ++ (cname, FS.dir (dpre ++ (dname, FS.dir []) :: dpost)) :: post)) := by
  unfold discoverProjects
  simp only [FS.readDir]
  exact scanCategories_badDir_eq_empty cname dname pre post dpre dpost

/-- Failing to list a directory below the category level is invisible to the
caller of `scanProjects`: the scan result equals, by construction, the result
of scanning the same tree with that directory empty. -/
theorem scanProjects_badDir_eq_empty (st : ScannerState) (elapsed : Nat)
    (cname dname : String) (pre post dpre dpost : List (String × FS)) :
    scanProjects st
        (some (FS.dir (pre ++ (cname, FS.dir (dpre ++ (dname, FS.badDir) :: dpost)) :: post)))
        elapsed
      = scanProjects st
          (some (FS.dir (pre ++ (cname, FS.dir (dpre ++ (dname, FS.dir []) :: dpost)) :: post)))
          elapsed := by
  unfold scanProjects
  by_cases hp : st.scanInProgress = true
  · rw [if_pos hp, if_pos hp]
  · rw [if_neg hp, if_neg hp]
    simp only [directoryExistsOpt]
    rw [discoverProjects_badDir_eq_empty cname dname pre post dpre dpost]

/-- Any error escaping the traversal of an existing root directory becomes one
error record for the scan root, with `success = false`, `projectsFound = 0`
and the stored location list untouched. -/
theorem scanProjects_of_discover_error (st : ScannerState) (elapsed : Nat)
    (rootFS : FS) (e : String) (h : st.scanInProgress = false)
    (hdir : rootFS.isDirectory = true)
    (hdp : discoverProjects rootFS = Except.error e) :
    scanProjects st (some rootFS) elapsed
      = (Except.ok (failResult e elapsed), ⟨false, st.lastDiscoveredProjects⟩) := by
  unfold scanProjects
  rw [if_neg (bool_ne_true h)]
  have hde : directoryExistsOpt (some rootFS) = true := by
    cases rootFS with
    | file m => simp [FS.isDirectory] at hdir
    | dir es => rfl
    | badDir => rfl
  rw [if_pos hde]
  simp only [hdp]

/-- An unlistable category folder (a directory named `personal` or
`professional`, case-insensitively, anywhere in the root listing) makes the
whole traversal escape with an error. -/
theorem scanCategories_error_of_bad_category (entries : List (String × FS)) (name : String)
    (hmem : (name, FS.badDir) ∈ entries)
    (hacc : strToLower name = "personal" ∨ strToLower name = "professional") :
    ∃ e, scanCategories entries = Except.error e := by
  induction entries with
  | nil => simp at hmem
  | cons a rest ih =>
    rcases List.mem_cons.mp hmem with heq | hmem2
    · rcases a with ⟨aname, anode⟩
      obtain ⟨h1, h2⟩ := Prod.mk.injEq .. ▸ heq.symm
      subst h1
      subst h2
      refine ⟨permissionDeniedMsg, ?_⟩
      rcases hacc with h | h <;>
        simp [scanCategories, FS.isDirectory, FS.readDir, h]
    · obtain ⟨e, he⟩ := ih hmem2
      rcases a with ⟨aname, anode⟩
      unfold scanCategories
      by_cases hd1 : anode.isDirectory = true
      · rw [if_pos hd1]
        by_cases hacc2 : (strToLower aname = "personal" ∨ strToLower aname = "professional")
        · rw [if_pos hacc2]
          cases hrd : anode.readDir with
          | none => exact ⟨permissionDeniedMsg, rfl⟩
          | some items =>
            refine ⟨e, ?_⟩
            simp only [he]
        · rw [if_neg hacc2]
          exact ⟨e, he⟩
      · rw [if_neg hd1]
        exact ⟨e, he⟩

/-- C3 amended, universal over traversal-failure scans.  (1) Whenever listing a
directory below the category level fails, the scan result — locations, success
flag and error list alike — is exactly the result of scanning the same tree
with that directory empty, so no error record is appended and the locations
from the rest of the tree are still returned; (2) a failed
`isProjectDirectory` probe of a deeper child likewise reports `false` without
error; (3) a failed-scan result always carries exactly one error record,
recording the scan root's path, with `success = false` and
`projectsFound = 0`; (4) any error escaping the traversal of an existing root
produces exactly that result, with the stored locations preserved; (5) an
unlistable root directory is such an error; and (6) so is an unlistable
category folder anywhere in the root listing. -/
theorem claim_C3_traversal_failure_modes :
    (∀ (st : ScannerState) (elapsed : Nat) (cname dname : String)
        (pre post dpre dpost : List (String × FS)),
        scanProjects st
            (some (FS.dir
              (pre ++ (cname, FS.dir (dpre ++ (dname, FS.badDir) :: dpost)) :: post)))
            elapsed
          = scanProjects st
              (some (FS.dir
                (pre ++ (cname, FS.dir (dpre ++ (dname, FS.dir []) :: dpost)) :: post)))
              elapsed)
      ∧ isProjectDirectory FS.badDir = false
      ∧ (∀ (e : String) (elapsed : Nat),
          (failResult e elapsed).errors = [⟨[], e⟩]
            ∧ (failResult e elapsed).success = false
            ∧ (failResult e elapsed).projectsFound = 0)
      ∧ (∀ (st : ScannerState) (elapsed : Nat) (rootFS : FS) (e : String),
          st.scanInProgress = false → rootFS.isDirectory = true →
          discoverProjects rootFS = Except.error e →
          scanProjects st (some rootFS) elapsed
            = (Except.ok (failResult e elapsed), ⟨false, st.lastDiscoveredProjects⟩))
      ∧ discoverProjects FS.badDir = Except.error permissionDeniedMsg
      ∧ (∀ (st : ScannerState) (elapsed : Nat) (entries : List (String × FS))
            (name : String),
          st.scanInProgress = false → (name, FS.badDir) ∈ entries →
          (strToLower name = "personal" ∨ strToLower name = "professional") →
          ∃ e, scanProjects st (some (FS.dir entries)) elapsed
            = (Except.ok (failResult e elapsed), ⟨false, st.lastDiscoveredProjects⟩)) := by
  refine ⟨scanProjects_badDir_eq_empty, rfl, fun e elapsed => ⟨rfl, rfl, rfl⟩,
    scanProjects_of_discover_error, rfl, ?_⟩
  intro st elapsed entries name h hmem hacc
  obtain ⟨e, he⟩ := scanCategories_error_of_bad_category entries name hmem hacc
  refine ⟨e, scanProjects_of_discover_error st elapsed (FS.dir entries) e h rfl ?_⟩
  unfold discoverProjects
  simp only [FS.readDir, he]

/-- Witness for the amended C3: a concrete unreadable domain folder changes
nothing against the empty folder, an unreadable scan root fails with one
root-path error record, and an unreadable `personal` category folder does
too. -/
theorem claim_C3_witness :
    (scanProjects ⟨false, []⟩
        (some (FS.dir [("personal", FS.dir [("a.com", FS.badDir)])])) 7
      = scanProjects ⟨false, []⟩
          (some (FS.dir [("personal", FS.dir [("a.com", FS.dir [])])])) 7)
      ∧ scanProjects ⟨false, []⟩ (some FS.badDir) 7
        = (Except.ok (failResult permissionDeniedMsg 7), ⟨false, []⟩)
      ∧ ∃ e, scanProjects ⟨false, []⟩ (some (FS.dir [("personal", FS.badDir)])) 3
        = (Except.ok (failResult e 3), ⟨false, []⟩) :=
  ⟨claim_C3_traversal_failure_modes.1 ⟨false, []⟩ 7 "personal" "a.com" [] [] [] [],
   claim_C3_traversal_failure_modes.2.2.2.1 ⟨false, []⟩ 7 FS.badDir
     permissionDeniedMsg rfl rfl rfl,
   claim_C3_traversal_failure_modes.2.2.2.2.2 ⟨false, []⟩ 3
     [("personal", FS.badDir)] "personal" rfl (by simp) (Or.inl rfl)⟩

/-- C4: for a scan root with a category folder (`personal` or `professional`,
case-insensitively) containing one domain-like folder whose only child is a
subdirectory named `api`, `scanProjects` yields exactly two discovered
locations — the domain itself (no subdomain, recorded even without project
indicators) and the `api` subdomain — whatever the contents of `api`. -/
theorem claim_C4_domain_api_two_locations (c d : String)
    (apiContents : List (String × FS))
    (prev : List DiscoveredLocation) (elapsed : Nat)
    (hc : strToLower c = "personal" ∨ strToLower c = "professional")
    (hd : isDomainLike d = true) :
    scanProjects ⟨false, prev⟩ (some (rootDomainApi c d apiContents)) elapsed
      = (Except.ok (okResult 2 elapsed),
         ⟨false, [⟨[c, d], strToLower c, some d, none⟩,
                  ⟨[c, d, "api"], strToLower c, some d, some "api"⟩]⟩) := by
  have hapi : isSubdomainLike "api" = true := by decide
  have hdisc : discoverProjects
        (FS.dir [(c, FS.dir [(d, FS.dir [("api", FS.dir apiContents)])])])
      = Except.ok [⟨[c, d], strToLower c, some d, none⟩,
                   ⟨[c, d, "api"], strToLower c, some d, some "api"⟩] := by
    rcases hc with hc | hc <;>
      simp [discoverProjects, FS.readDir, FS.isDirectory, scanCategories,
        scanCategoryItem, scanDomainChildren, hc, hd, hapi]
  simp [scanProjects, directoryExistsOpt, rootDomainApi, hdisc, okResult]

/-- Witness for C4 with category `personal`, domain `example.com` and an empty
`api` folder. -/
theorem claim_C4_witness :
    scanProjects ⟨false, []⟩ (some (rootDomainApi "personal" "example.com" [])) 3
      = (Except.ok (okResult 2 3),
         ⟨false,
          [⟨["personal", "example.com"], strToLower "personal",
            some "example.com", none⟩,
           ⟨["personal", "example.com", "api"], strToLower "personal",
            some "example.com", some "api"⟩]⟩) :=
  claim_C4_domain_api_two_locations "personal" "example.com" [] [] 3
    (Or.inl rfl) (by decide)

/-- C5: a `scanProjects` call while a scan is already in progress throws the
scan-in-progress error and leaves the scanner state — in particular
`lastDiscoveredProjects` — untouched; the conclusion does not depend on the
filesystem, so no second traversal is started. -/
theorem claim_C5_concurrent_scan_guard (st : ScannerState) (root : Option FS)
    (elapsed : Nat) (h : st.scanInProgress = true) :
    scanProjects st root elapsed = (Except.error "Scan already in progress", st) := by
  unfold scanProjects
  rw [if_pos h]

/-- Witness for C5. -/
theorem claim_C5_witness :
    scanProjects ⟨true, [⟨["p"], "personal", none, none⟩]⟩ (some (FS.dir [])) 5
      = (Except.error "Scan already in progress",
         ⟨true, [⟨["p"], "personal", none, none⟩]⟩) :=
  claim_C5_concurrent_scan_guard ⟨true, [⟨["p"], "personal", none, none⟩]⟩
    (some (FS.dir [])) 5 rfl

/-- C6: when the scan root does not exist or is not a directory,
`scanProjects` returns (rather than raising) a result with `success = false`,
`projectsFound = 0` and a descriptive error record; and for every invocation
that passes the concurrency guard, whatever the outcome, a result is returned
with the in-progress flag cleared and the elapsed duration recorded. -/
theorem claim_C6_root_not_found_and_finally (st : ScannerState) (root : Option FS)
    (elapsed : Nat) (h : st.scanInProgress = false) :
    (directoryExistsOpt root = false →
        scanProjects st root elapsed
          = (Except.ok (failResult rootNotFoundMsg elapsed),
             ⟨false, st.lastDiscoveredProjects⟩)
        ∧ (failResult rootNotFoundMsg elapsed).success = false
        ∧ (failResult rootNotFoundMsg elapsed).projectsFound = 0
        ∧ (failResult rootNotFoundMsg elapsed).errors = [⟨[], rootNotFoundMsg⟩])
      ∧ (∃ r st2, scanProjects st root elapsed = (Except.ok r, st2)
          ∧ st2.scanInProgress = false ∧ r.scanDuration = elapsed) := by
  constructor
  · intro hdir
    refine ⟨?_, rfl, rfl, rfl⟩
    unfold scanProjects
    rw [if_neg (bool_ne_true h), if_neg (bool_ne_true hdir)]
  · unfold scanProjects
    rw [if_neg (bool_ne_true h)]
    by_cases hdir : directoryExistsOpt root = true
    · rw [if_pos hdir]
      cases root with
      | none => simp [directoryExistsOpt] at hdir
      | some rootFS =>
        cases hdp : discoverProjects rootFS with
        | ok locs =>
          exact ⟨okResult locs.length elapsed, ⟨false, locs⟩, by simp [hdp], rfl, rfl⟩
        | error e =>
          exact ⟨failResult e elapsed, ⟨false, st.lastDiscoveredProjects⟩,
            by simp [hdp], rfl, rfl⟩
    · rw [if_neg hdir]
      exact ⟨failResult rootNotFoundMsg elapsed, ⟨false, st.lastDiscoveredProjects⟩,
        rfl, rfl, rfl⟩

/-- Witness for C6 with a missing root. -/
theorem claim_C6_witness :
    (directoryExistsOpt (none : Option FS) = false →
        scanProjects ⟨false, []⟩ none 5
          = (Except.ok (failResult rootNotFoundMsg 5), ⟨false, []⟩)
        ∧ (failResult rootNotFoundMsg 5).success = false
        ∧ (failResult rootNotFoundMsg 5).projectsFound = 0
        ∧ (failResult rootNotFoundMsg 5).errors = [⟨[], rootNotFoundMsg⟩])
      ∧ (∃ r st2, scanProjects ⟨false, []⟩ none 5 = (Except.ok r, st2)
          ∧ st2.scanInProgress = false ∧ r.scanDuration = 5) :=
  claim_C6_root_not_found_and_finally ⟨false, []⟩ none 5 rfl

/-- C10: whenever `scanProjects` returns a result with `success = false`, the
stored discovered-locations list is exactly what it was before the call, so
`getDiscoveredProjects` still returns the previous list; the list is assigned
only on the success path. -/
theorem claim_C10_failure_preserves_locations (st : ScannerState) (root : Option FS)
    (elapsed : Nat) (r : ScanResult) (st2 : ScannerState)
    (h : scanProjects st root elapsed = (Except.ok r, st2))
    (hs : r.success = false) :
    st2.lastDiscoveredProjects = st.lastDiscoveredProjects
      ∧ getDiscoveredProjects st2 = getDiscoveredProjects st := by
  unfold scanProjects at h
  by_cases hp : st.scanInProgress = true
  · rw [if_pos hp] at h
    simp at h
  · rw [if_neg hp] at h
    by_cases hdir : directoryExistsOpt root = true
    · rw [if_pos hdir] at h
      cases root with
      | none => simp [directoryExistsOpt] at hdir
      | some rootFS =>
        cases hdp : discoverProjects rootFS with
        | ok locs =>
          simp only [hdp, Prod.mk.injEq] at h
          obtain ⟨ha, hb⟩ := h
          injection ha with ha
          rw [← ha] at hs
          simp [okResult] at hs
        | error e =>
          simp only [hdp, Prod.mk.injEq] at h
          obtain ⟨ha, hb⟩ := h
          rw [← hb]
          exact ⟨rfl, rfl⟩
    · rw [if_neg hdir] at h
      simp only [Prod.mk.injEq] at h
      obtain ⟨ha, hb⟩ := h
      rw [← hb]
      exact ⟨rfl, rfl⟩

/-- Witness for C10 with a missing root and a nonempty previous list. -/
theorem claim_C10_witness :
    ScannerState.lastDiscoveredProjects ⟨false, [⟨["p"], "personal", none, none⟩]⟩
        = ScannerState.lastDiscoveredProjects ⟨false, [⟨["p"], "personal", none, none⟩]⟩
      ∧ getDiscoveredProjects ⟨false, [⟨["p"], "personal", none, none⟩]⟩
        = getDiscoveredProjects ⟨false, [⟨["p"], "personal", none, none⟩]⟩ :=
  claim_C10_failure_preserves_locations
    ⟨false, [⟨["p"], "personal", none, none⟩]⟩ none 3
    (failResult rootNotFoundMsg 3) ⟨false, [⟨["p"], "personal", none, none⟩]⟩
    rfl rfl

end PDE
